import Mathlib

/-!
# Verification of the extraction / fallback protocol of `api_server.py`

This file gives a shallow embedding of the four POST endpoint handlers of
`src/api_server.py` (a FastAPI service bridging the Portia planning SDK and
the Venice chat-completion API) and proves/refutes the frozen claims about
the JSON-from-free-text extraction and primary/fallback protocol.

Modelling conventions:
* Python JSON values are modelled by the inductive `PyJson`; numbers keep
  their validated JSON lexeme (the claims never depend on float formatting).
* Python exceptions are modelled by `Except PyErr`; a `try/except` block is a
  `match` on the `Except` value.
* The two external collaborators (Portia and the Venice HTTP call) are an
  oracle environment `Env`; each handler also returns the list of external
  calls it made, in order, so that call-ordering claims are statable.
* All character scanning (`re.search`, `str.replace`, `json.loads`) is done
  over `List Char`, with fuel-based recursion so that everything reduces by
  `rfl`/`decide` on concrete inputs.
-/

set_option maxRecDepth 10000

namespace PortiaServer

/-- The left brace character, kept as a named constant. -/
def lbrace : Char := Char.ofNat 123

/-- The right brace character, kept as a named constant. -/
def rbrace : Char := Char.ofNat 125

/-- Model of a Python value decoded from / encodable to JSON (the values
produced by `json.loads` and accepted by `json.dumps`).  Numbers keep their
validated JSON lexeme: no claim depends on Python's int/float formatting.
`obj` models a Python `dict` built by `json.loads`: keys are unique and kept
in insertion order. -/
inductive PyJson where
  | null : PyJson
  | bool (b : Bool) : PyJson
  | num (lexeme : String) : PyJson
  | str (s : String) : PyJson
  | arr (elems : List PyJson) : PyJson
  | obj (fields : List (String × PyJson)) : PyJson
deriving Repr

/-- Model of a Python exception value, carrying the string that `str(e)`
would produce (for `KeyError`, `str(e)` is the `repr` of the missing key,
which the constructor stores already formatted). -/
inductive PyErr where
  | keyError (msg : String)
  | indexError (msg : String)
  | typeError (msg : String)
  | attributeError (msg : String)
  | jsonDecodeError (msg : String)
deriving DecidableEq, Repr

/-- `str(e)` for a modelled Python exception. -/
def PyErr.message : PyErr → String
  | .keyError m => m
  | .indexError m => m
  | .typeError m => m
  | .attributeError m => m
  | .jsonDecodeError m => m

/-! ## Character-list scanning primitives

These model the parts of Python's `re` and `str` used by the handlers:
`re.search` with the three literal-delimited lazy patterns, and
`str.replace`. -/

/-- Index of the first occurrence of `pat` in `hay` (`none` if `pat` never
occurs).  Models the leftmost-match rule of `re.search` for a literal. -/
def findSub (pat : List Char) : List Char → Option Nat
  | [] => if pat = [] then some 0 else none
  | c :: rest =>
    if pat.isPrefixOf (c :: rest) then some 0
    else (findSub pat rest).map (· + 1)

/-- Model of `re.search(opener + lazy-any + closer, hay).group(0)` for the
three patterns of the extractor, all of which are a literal opener, a lazy
`[\s\S]*?`, and a literal closer.  `re.search` picks the leftmost viable
start (the first occurrence of the opener that still has a closer after it)
and the lazy middle picks the earliest closer at or after the end of the
opener. -/
def fencedMatch (opener closer hay : List Char) : Option (List Char) :=
  match findSub opener hay with
  | none => none
  | some i =>
    match findSub closer ((hay.drop i).drop opener.length) with
    | none => none
    | some j => some ((hay.drop i).take (opener.length + j + closer.length))

/-- Fuel-driven model of Python `str.replace` (all non-overlapping
occurrences, scanning left to right).  The fuel is always instantiated to at
least the length of the scanned list, which makes the function total and
keeps it reducible by the kernel. -/
def replaceAllF (pat repl : List Char) : Nat → List Char → List Char
  | 0, hay => hay
  | _ + 1, [] => []
  | fuel + 1, c :: rest =>
    if pat.isPrefixOf (c :: rest) ∧ 0 < pat.length then
      repl ++ replaceAllF pat repl fuel ((c :: rest).drop pat.length)
    else
      c :: replaceAllF pat repl fuel rest

/-- Python `hay.replace(pat, repl)` for a non-empty literal `pat`. -/
def replaceAll (pat repl hay : List Char) : List Char :=
  replaceAllF pat repl hay.length hay

/-! ## Model of `json.loads`

A recursive-descent parser matching the behaviour of Python's `json.loads`
in its default (strict) configuration: the whole input, up to surrounding
JSON whitespace, must be a single JSON value; numbers follow the
`(?:-?(?:0|[1-9]\d*))(?:\.\d+)?(?:[eE][-+]?\d+)?` regex of the module;
the constants `NaN`, `Infinity` and `-Infinity` are accepted; strings
reject unescaped control characters; duplicate object keys keep the first
position and the last value, as a Python `dict` does.  (Recombination of
`\uXXXX` surrogate pairs is not modelled; no claim exercises it.) -/

/-- Whitespace skipped by Python's json module: space, tab, newline, CR. -/
def isJsonWs (c : Char) : Bool := c = ' ' || c = '\t' || c = '\n' || c = '\r'

/-- Drop leading JSON whitespace. -/
def skipWs (cs : List Char) : List Char := cs.dropWhile isJsonWs

/-- `dict` insertion as performed while decoding an object: an existing key
keeps its position and gets the new value; a new key is appended. -/
def insertField (fs : List (String × PyJson)) (k : String) (v : PyJson) :
    List (String × PyJson) :=
  match fs with
  | [] => [(k, v)]
  | (k', v') :: rest =>
    if k' = k then (k', v) :: rest else (k', v') :: insertField rest k v

/-- Value of a hexadecimal digit. -/
def hexVal (c : Char) : Option Nat :=
  if '0' ≤ c ∧ c ≤ '9' then some (c.toNat - 48)
  else if 'a' ≤ c ∧ c ≤ 'f' then some (c.toNat - 87)
  else if 'A' ≤ c ∧ c ≤ 'F' then some (c.toNat - 55)
  else none

/-- Body of a JSON string, after the opening quote; returns the decoded
string and the remainder after the closing quote. -/
def parseStrBody : Nat → List Char → List Char → Option (String × List Char)
  | 0, _, _ => none
  | fuel + 1, cs, acc =>
    match cs with
    | [] => none
    | c :: rest =>
      if c = '"' then some (String.mk acc.reverse, rest)
      else if c = '\\' then
        match rest with
        | [] => none
        | e :: r2 =>
          if e = '"' then parseStrBody fuel r2 ('"' :: acc)
          else if e = '\\' then parseStrBody fuel r2 ('\\' :: acc)
          else if e = '/' then parseStrBody fuel r2 ('/' :: acc)
          else if e = 'b' then parseStrBody fuel r2 (Char.ofNat 8 :: acc)
          else if e = 'f' then parseStrBody fuel r2 (Char.ofNat 12 :: acc)
          else if e = 'n' then parseStrBody fuel r2 ('\n' :: acc)
          else if e = 'r' then parseStrBody fuel r2 ('\r' :: acc)
          else if e = 't' then parseStrBody fuel r2 ('\t' :: acc)
          else if e = 'u' then
            match r2 with
            | h1 :: h2 :: h3 :: h4 :: r6 =>
              match hexVal h1, hexVal h2, hexVal h3, hexVal h4 with
              | some a, some b, some c3, some d =>
                parseStrBody fuel r6 (Char.ofNat (((a * 16 + b) * 16 + c3) * 16 + d) :: acc)
              | _, _, _, _ => none
            | _ => none
          else none
      else if c.toNat < 32 then none
      else parseStrBody fuel rest (c :: acc)

/-- A JSON number token, per the NUMBER_RE regex of Python's json module.
When the regex can only match a prefix of the available digits (e.g. a
leading-zero form such as `0123`), only that prefix is consumed and the
rest is left for the caller, which then fails with "Extra data" exactly as
`json.loads` does. -/
def parseNumber (cs : List Char) : Option (PyJson × List Char) :=
  let (sign, cs1) :=
    match cs with
    | '-' :: rest => ((['-'] : List Char), rest)
    | _ => (([] : List Char), cs)
  match cs1 with
  | [] => none
  | c :: _ =>
    if ¬ c.isDigit then none
    else
      let ds := cs1.takeWhile Char.isDigit
      let rest := cs1.dropWhile Char.isDigit
      let (ip, cs2) :=
        if ds.head? = some '0' ∧ 1 < ds.length then ((['0'] : List Char), ds.drop 1 ++ rest)
        else (ds, rest)
      let (fp, cs3) :=
        match cs2 with
        | '.' :: d :: _ =>
          if d.isDigit then
            ('.' :: (cs2.drop 1).takeWhile Char.isDigit, (cs2.drop 1).dropWhile Char.isDigit)
          else (([] : List Char), cs2)
        | _ => (([] : List Char), cs2)
      let (ep, cs4) :=
        match cs3 with
        | e :: t =>
          if e = 'e' ∨ e = 'E' then
            match t with
            | s :: t2 =>
              if s.isDigit then
                (e :: t.takeWhile Char.isDigit, t.dropWhile Char.isDigit)
              else if s = '+' ∨ s = '-' then
                match t2 with
                | d2 :: _ =>
                  if d2.isDigit then
                    (e :: s :: t2.takeWhile Char.isDigit, t2.dropWhile Char.isDigit)
                  else (([] : List Char), cs3)
                | [] => (([] : List Char), cs3)
              else (([] : List Char), cs3)
            | [] => (([] : List Char), cs3)
          else (([] : List Char), cs3)
        | [] => (([] : List Char), cs3)
      some (.num (String.mk (sign ++ ip ++ fp ++ ep)), cs4)

/-- Parser state: a plain value, the members of an object being decoded, or
the elements of an array being decoded (with the fields/elements decoded so
far). -/
inductive PMode where
  | value : PMode
  | member (acc : List (String × PyJson)) : PMode
  | element (acc : List PyJson) : PMode

/-- The core JSON parser, fuelled so that it is structurally recursive and
kernel-reducible.  Returns the decoded value and the unconsumed remainder. -/
def parseF : Nat → PMode → List Char → Option (PyJson × List Char)
  | 0, _, _ => none
  | fuel + 1, .value, cs =>
    match cs with
    | [] => none
    | c :: rest =>
      if c = '"' then
        match parseStrBody fuel rest [] with
        | some (s, r) => some (.str s, r)
        | none => none
      else if c = lbrace then
        match skipWs rest with
        | d :: r2 => if d = rbrace then some (.obj [], r2) else parseF fuel (.member []) (skipWs rest)
        | [] => none
      else if c = '[' then
        match skipWs rest with
        | d :: r2 => if d = ']' then some (.arr [], r2) else parseF fuel (.element []) (skipWs rest)
        | [] => none
      else if "true".data.isPrefixOf cs then some (.bool true, cs.drop 4)
      else if "false".data.isPrefixOf cs then some (.bool false, cs.drop 5)
      else if "null".data.isPrefixOf cs then some (.null, cs.drop 4)
      else if "NaN".data.isPrefixOf cs then some (.num "NaN", cs.drop 3)
      else if "Infinity".data.isPrefixOf cs then some (.num "Infinity", cs.drop 8)
      else if "-Infinity".data.isPrefixOf cs then some (.num "-Infinity", cs.drop 9)
      else parseNumber cs
  | fuel + 1, .member acc, cs =>
    match cs with
    | [] => none
    | c :: rest =>
      if c = '"' then
        match parseStrBody fuel rest [] with
        | some (k, r1) =>
          match skipWs r1 with
          | ':' :: r2 =>
            match parseF fuel .value (skipWs r2) with
            | some (v, r3) =>
              match skipWs r3 with
              | ',' :: r4 => parseF fuel (.member (insertField acc k v)) (skipWs r4)
              | d :: r4 => if d = rbrace then some (.obj (insertField acc k v), r4) else none
              | [] => none
            | none => none
          | _ => none
        | none => none
      else none
  | fuel + 1, .element acc, cs =>
    match parseF fuel .value cs with
    | some (v, r1) =>
      match skipWs r1 with
      | ',' :: r2 => parseF fuel (.element (acc ++ [v])) (skipWs r2)
      | ']' :: r2 => some (.arr (acc ++ [v]), r2)
      | _ => none
    | none => none

/-- Model of Python `json.loads`: parse one value, allow surrounding JSON
whitespace, reject any trailing data; `none` models a raised
`json.JSONDecodeError`. -/
def json_loads (s : String) : Option PyJson :=
  match parseF (4 * s.data.length + 16) .value (skipWs s.data) with
  | some (v, rest) => if skipWs rest = [] then some v else none
  | none => none

/-! ## The JSON Extractor

Embedding of the duplicated extraction block of `analyze_contract`
(lines 147-156) and `assess_insurance` (lines 300-309):

```
try:
    json_match = re.search(r'```json\n([\s\S]*?)\n```', content) \
        or re.search(r'```\n([\s\S]*?)\n```', content) \
        or re.search(r'{[\s\S]*?}', content)
    if json_match:
        json_str = json_match.group(0).replace('```json\n', '') \
            .replace('```\n', '').replace('```', '')
        parsed_content = json.loads(json_str)
    else:
        parsed_content = {"raw_response": content}
except Exception as e:
    parsed_content = {"raw_response": content}
```
-/

/-- The opener literal of the json-tagged fence pattern. -/
def jsonOpener : List Char := "```json\n".data

/-- The opener literal of the untagged fence pattern. -/
def plainOpener : List Char := "```\n".data

/-- The closer literal of both fence patterns. -/
def fenceCloser : List Char := "\n```".data

/-- The `or`-chain of the three `re.search` calls: json-tagged fence, plain
fence, then the lazy brace pattern; the result is `group(0)` of the first
pattern that matches. -/
def findJsonMatch (cs : List Char) : Option (List Char) :=
  match fencedMatch jsonOpener fenceCloser cs with
  | some m => some m
  | none =>
    match fencedMatch plainOpener fenceCloser cs with
    | some m => some m
    | none => fencedMatch [lbrace] [rbrace] cs

/-- The three chained `str.replace` calls applied to `group(0)`. -/
def stripFences (cs : List Char) : List Char :=
  replaceAll "```".data [] (replaceAll "```\n".data [] (replaceAll "```json\n".data [] cs))

/-- The candidate string submitted to `json.loads`, when a pattern matched. -/
def candidateOf (content : String) : Option String :=
  (findJsonMatch content.data).map (fun m => String.mk (stripFences m))

/-- The fallback payload `{"raw_response": content}`. -/
def rawFallback (content : String) : PyJson :=
  .obj [("raw_response", .str content)]

/-- The body of the extraction `try` block, with the `json.loads` failure
left as a raised exception (the `if json_match:` else-branch does not
raise: it produces the fallback payload directly). -/
def extractAttempt (content : String) : Except PyErr PyJson :=
  match candidateOf content with
  | some cand =>
    match json_loads cand with
    | some v => .ok v
    | none => .error (.jsonDecodeError "Expecting value")
  | none => .ok (rawFallback content)

/-- The whole extraction block: the `except` converts any parse failure to
the fallback payload, so `extract` is total. -/
def extract (content : String) : PyJson :=
  match candidateOf content with
  | some cand =>
    match json_loads cand with
    | some v => v
    | none => rawFallback content
  | none => rawFallback content

/-! ## Python operational helpers

The handlers probe the decoded Venice response with plain Python
operations (`if x and "choices" in x and len(x["choices"]) > 0`, chained
subscripts, slicing).  These helpers give those operations their Python
semantics over `PyJson`, with `Except PyErr` for the raising ones. -/

/-- Python truthiness of a JSON-decoded value.  A number is falsy exactly
when its mantissa digits are all zero (an exponent cannot make it
non-zero); `NaN`/`Infinity` have no mantissa digit and are truthy. -/
def pyTruthy : PyJson → Bool
  | .null => false
  | .bool b => b
  | .num lexeme =>
    let mantissa := (lexeme.data.takeWhile (fun c => c ≠ 'e' ∧ c ≠ 'E')).filter Char.isDigit
    mantissa.isEmpty || !(mantissa.all (· = '0'))
  | .str s => !s.data.isEmpty
  | .arr xs => !xs.isEmpty
  | .obj fs => !fs.isEmpty

/-- Python `key in x` for a string key: dict key membership, list element
membership, substring test for strings; `TypeError` otherwise. -/
def pyIn (key : String) : PyJson → Except PyErr Bool
  | .obj fs => .ok (fs.any (fun p => p.1 = key))
  | .arr xs => .ok (xs.any (fun x => match x with | .str s => s = key | _ => false))
  | .str s => .ok (findSub key.data s.data).isSome
  | _ => .error (.typeError "argument is not iterable")

/-- Python `x[key]` for a string key: dict lookup raising `KeyError` when
absent; `TypeError` for every non-dict. -/
def pySubscript (x : PyJson) (key : String) : Except PyErr PyJson :=
  match x with
  | .obj fs =>
    match fs.find? (fun p => p.1 = key) with
    | some p => .ok p.2
    | none => .error (.keyError ("'" ++ key ++ "'"))
  | .arr _ => .error (.typeError "list indices must be integers or slices, not str")
  | .str _ => .error (.typeError "string indices must be integers")
  | _ => .error (.typeError "object is not subscriptable")

/-- Python `x[i]` for a non-negative integer index. -/
def pyIndex (x : PyJson) (i : Nat) : Except PyErr PyJson :=
  match x with
  | .arr xs =>
    match xs.get? i with
    | some v => .ok v
    | none => .error (.indexError "list index out of range")
  | .str s =>
    match s.data.get? i with
    | some c => .ok (.str (String.mk [c]))
    | none => .error (.indexError "string index out of range")
  | .obj _ => .error (.keyError (toString i))
  | _ => .error (.typeError "object is not subscriptable")

/-- Python `len(x)`. -/
def pyLen : PyJson → Except PyErr Nat
  | .str s => .ok s.data.length
  | .arr xs => .ok xs.length
  | .obj fs => .ok fs.length
  | _ => .error (.typeError "object has no len")

/-- `dict.get` without default: `some` iff the key is present. -/
def dictGet (fs : List (String × PyJson)) (key : String) : Option PyJson :=
  (fs.find? (fun p => p.1 = key)).map Prod.snd

/-! ## `str()` and `json.dumps` renderings

The recommendation handler interpolates `overall_score` and `risk_level`
into f-strings (Python `str()`), and serialises the whole analysis dict
with `json.dumps`.  Numbers are rendered by their kept JSON lexeme (the
int/float repr subtleties of Python are not modelled; no claim depends on
them), and `repr()` of strings is modelled as plain single-quoting. -/

mutual

/-- Python `str()` of a JSON-decoded value, as interpolated by an f-string. -/
def pyStr : PyJson → String
  | .null => "None"
  | .bool b => cond b "True" "False"
  | .num lexeme => lexeme
  | .str s => s
  | .arr xs => "[" ++ pyReprList xs ++ "]"
  | .obj fs => "\x7b" ++ pyReprFields fs ++ "\x7d"

/-- Comma-joined `repr()`s of list elements. -/
def pyReprList : List PyJson → String
  | [] => ""
  | [x] => pyReprOne x
  | x :: y :: xs => pyReprOne x ++ ", " ++ pyReprList (y :: xs)

/-- Comma-joined `repr(key): repr(value)` pairs of a dict. -/
def pyReprFields : List (String × PyJson) → String
  | [] => ""
  | [(k, v)] => "'" ++ k ++ "': " ++ pyReprOne v
  | (k, v) :: f :: fs => "'" ++ k ++ "': " ++ pyReprOne v ++ ", " ++ pyReprFields (f :: fs)

/-- Python `repr()` of a JSON-decoded value. -/
def pyReprOne : PyJson → String
  | .null => "None"
  | .bool b => cond b "True" "False"
  | .num lexeme => lexeme
  | .str s => "'" ++ s ++ "'"
  | .arr xs => "[" ++ pyReprList xs ++ "]"
  | .obj fs => "\x7b" ++ pyReprFields fs ++ "\x7d"

end

/-- Lowercase hexadecimal digit. -/
def hexDigit (n : Nat) : Char :=
  if n < 10 then Char.ofNat (48 + n) else Char.ofNat (87 + n)

/-- Four lowercase hex digits. -/
def hex4 (n : Nat) : List Char :=
  [hexDigit (n / 4096 % 16), hexDigit (n / 256 % 16), hexDigit (n / 16 % 16), hexDigit (n % 16)]

/-- A `\uXXXX` escape (a surrogate pair above the BMP), as `json.dumps`
emits with its default `ensure_ascii=True`. -/
def uEsc (n : Nat) : List Char :=
  if n < 65536 then '\\' :: 'u' :: hex4 n
  else
    let m := n - 65536
    ('\\' :: 'u' :: hex4 (55296 + m / 1024)) ++ ('\\' :: 'u' :: hex4 (56320 + m % 1024))

/-- One character of a `json.dumps` string literal. -/
def escChar (c : Char) : List Char :=
  if c = '"' then ['\\', '"']
  else if c = '\\' then ['\\', '\\']
  else if c = '\n' then ['\\', 'n']
  else if c = '\r' then ['\\', 'r']
  else if c = '\t' then ['\\', 't']
  else if c.toNat = 8 then ['\\', 'b']
  else if c.toNat = 12 then ['\\', 'f']
  else if c.toNat < 32 ∨ 126 < c.toNat then uEsc c.toNat
  else [c]

/-- A `json.dumps` string literal with its quotes. -/
def dumpsString (s : String) : String :=
  "\"" ++ String.mk ((s.data.map escChar).foldr (· ++ ·) []) ++ "\""

mutual

/-- Python `json.dumps` with its default separators `', '` and `': '`. -/
def dumpsVal : PyJson → String
  | .null => "null"
  | .bool b => cond b "true" "false"
  | .num lexeme => lexeme
  | .str s => dumpsString s
  | .arr xs => "[" ++ dumpsElems xs ++ "]"
  | .obj fs => "\x7b" ++ dumpsFields fs ++ "\x7d"

/-- Serialised list elements. -/
def dumpsElems : List PyJson → String
  | [] => ""
  | [x] => dumpsVal x
  | x :: y :: xs => dumpsVal x ++ ", " ++ dumpsElems (y :: xs)

/-- Serialised dict entries. -/
def dumpsFields : List (String × PyJson) → String
  | [] => ""
  | [(k, v)] => dumpsString k ++ ": " ++ dumpsVal v
  | (k, v) :: f :: fs => dumpsString k ++ ": " ++ dumpsVal v ++ ", " ++ dumpsFields (f :: fs)

end

/-! ## Probing the Venice response

Embedding of `call_venice_api` and of the shared
`if venice_response and "choices" in venice_response and
len(venice_response["choices"]) > 0:` test, followed by
`venice_response["choices"][0]["message"]["content"]`. -/

/-- The two external collaborators, as a per-request oracle: what
`portia.plan(prompt).model_dump()` yields (or raises), what
`requests.post(...).json()` yields (or raises: network error or non-JSON
body), and what `portia.run_plan(plan).model_dump()` yields (or raises).
Each handler makes at most one call to each, so one outcome per oracle
suffices. -/
structure Env where
  planResult : String → Except PyErr PyJson
  veniceHttp : Except PyErr PyJson
  runPlanResult : PyJson → Except PyErr PyJson

/-- `call_venice_api` (lines 57-80): it posts, decodes the body, and
returns `None` if anything raised (network failure or non-JSON body). -/
def call_venice_api (env : Env) : Option PyJson :=
  match env.veniceHttp with
  | .ok j => some j
  | .error _ => none

/-- One external call made by a handler, in order of occurrence.
Temperature is recorded in tenths (`1` for `0.1`, `7` for `0.7`). -/
inductive Event where
  | planCall (prompt : String)
  | veniceCall (messages : List (String × String)) (temperatureTenths maxTokens : Nat)
  | runPlanCall (plan : PyJson)

/-- Is an event a `portia.plan` call? -/
def Event.isPlanCall : Event → Bool
  | .planCall _ => true
  | _ => false

/-- The usability test on the decoded Venice response:
`venice_response and "choices" in venice_response and
len(venice_response["choices"]) > 0`, with Python's short-circuiting and
its raising behaviour on ill-typed values. -/
def veniceUsable (v : PyJson) : Except PyErr Bool :=
  if !pyTruthy v then .ok false
  else do
    let hasChoices ← pyIn "choices" v
    if !hasChoices then pure false
    else do
      let choices ← pySubscript v "choices"
      let n ← pyLen choices
      pure (0 < n)

/-- `venice_response["choices"][0]["message"]["content"]`. -/
def getMessageContent (v : PyJson) : Except PyErr PyJson := do
  let choices ← pySubscript v "choices"
  let c0 ← pyIndex choices 0
  let msg ← pySubscript c0 "message"
  pySubscript msg "content"

/-- `content[:500] + "..." if len(content) > 500 else content`.  For a
non-string `content` this follows Python: `len` works on lists/dicts but
the slice-and-concatenate raises, and `len` itself raises on the rest. -/
def summaryOf : PyJson → Except PyErr PyJson
  | .str s =>
    .ok (.str (if 500 < s.data.length then String.mk (s.data.take 500) ++ "..." else s))
  | .arr xs =>
    if 500 < xs.length then .error (.typeError "can only concatenate list (not str) to list")
    else .ok (.arr xs)
  | .obj fs =>
    if 500 < fs.length then .error (.typeError "unhashable type: slice")
    else .ok (.obj fs)
  | _ => .error (.typeError "object of this type has no len()")

/-- What the extraction block leaves in `parsed_content`: for a string it
is `extract`; for any other value the first `re.search` raises `TypeError`
inside the extraction `try`, whose handler produces the fallback dict
around the (non-string) content. -/
def parsedContentOf : PyJson → PyJson
  | .str s => extract s
  | other => .obj [("raw_response", other)]

/-! ## Response envelopes -/

/-- The success envelope, shared by all four handlers (the `value` is the
extracted payload or the raw content, depending on the handler). -/
def successEnvelope (plan value summary : PyJson) : PyJson :=
  .obj [("plan", plan),
        ("results", .obj [("outputs", .obj [("final_output",
          .obj [("value", value), ("summary", summary)])])]),
        ("venice_used", .bool true)]

/-- The fallback envelope: the pre-computed plan plus the Portia run dump. -/
def fallbackEnvelope (plan runDump : PyJson) : PyJson :=
  .obj [("plan", plan), ("results", runDump), ("venice_used", .bool false)]

/-- The global failure envelope `{"error": str(e)}`. -/
def errorEnvelope (e : PyErr) : PyJson :=
  .obj [("error", .str e.message)]

/-- FastAPI returns every handler's dict with its default status code; none
of the routes overrides it, so the HTTP status is 200 for every body,
including the error envelope.  (Framework behaviour, not repository code.) -/
def httpStatusOf (_body : PyJson) : Nat := 200

/-- The shared "run the previously constructed plan" fallback tail of every
handler; `portia.run_plan` raising here lands in the outer `except`. -/
def portiaFallback (env : Env) (plan : PyJson) (tr : List Event) : PyJson × List Event :=
  match env.runPlanResult plan with
  | .error e => (errorEnvelope e, tr ++ [Event.runPlanCall plan])
  | .ok runDump => (fallbackEnvelope plan runDump, tr ++ [Event.runPlanCall plan])

/-! ## Request bodies (the Pydantic models) -/

/-- `ContractRequest` of `api_server.py`. -/
structure ContractRequest where
  contract_code : String

/-- `TranslateRequest` of `api_server.py`. -/
structure TranslateRequest where
  source_code : String
  target_language : String

/-- `InsuranceRequest` of `api_server.py`.  Floats are not modelled: the
`tvl` field is carried as the string `str(tvl)` interpolated by the
prompts; no claim depends on float formatting. -/
structure InsuranceRequest where
  contract_code : String
  tvlStr : String

/-- `RecommendationRequest` of `api_server.py`; `analysis: dict` is a
JSON object (unique keys in insertion order). -/
structure RecommendationRequest where
  contract_code : String
  analysis : List (String × PyJson)

/-! ## Prompt texts

Exact transcriptions of the f-strings of `api_server.py`, including their
indentation and trailing spaces.  Literal braces are written `\x7b`/`\x7d`. -/

/-- Text before the contract code in the analyze planning prompt. -/
def anaPlanPre : String :=
  "Analyze this smart contract for security vulnerabilities:\n            "

/-- Text after the contract code in the analyze planning prompt. -/
def anaPlanPost : String :=
  "\n            \n            Provide a comprehensive security analysis with scores and details.\n            "

/-- The Portia planning prompt of `analyze_contract` (lines 97-102). -/
def analyzePlanPrompt (code : String) : String :=
  anaPlanPre ++ code ++ anaPlanPost

/-- The Venice system message of `analyze_contract` (lines 108-132). -/
def analyzeSystemMsg : String :=
  "You are a smart contract security analyzer. Analyze the following contract for vulnerabilities and security issues. \n                Respond with a JSON object that has the following structure:\n                \x7b\n                  \"overall_score\": number from 0-100,\n                  \"complexity\": \x7b\n                    \"score\": number from 0-100,\n                    \"details\": array of strings with findings,\n                    \"risk_level\": \"Low\", \"Medium\", or \"High\"\n                  \x7d,\n                  \"vulnerabilities\": \x7b\n                    \"score\": number from 0-100,\n                    \"details\": array of strings describing vulnerabilities,\n                    \"risk_level\": \"Low\", \"Medium\", or \"High\"\n                  \x7d,\n                  \"upgradability\": \x7b\n                    \"score\": number from 0-100,\n                    \"details\": array of strings with findings,\n                    \"risk_level\": \"Low\", \"Medium\", or \"High\"\n                  \x7d,\n                  \"behavior\": \x7b\n                    \"score\": number from 0-100,\n                    \"details\": array of strings with findings,\n                    \"risk_level\": \"Low\", \"Medium\", or \"High\"\n                  \x7d\n                \x7d"

/-- The two Venice messages of `analyze_contract` (role, content). -/
def analyzeMessages (code : String) : List (String × String) :=
  [("system", analyzeSystemMsg),
   ("user", "Analyze this smart contract:\n\n" ++ code)]

/-- Text before the target language in the translate planning prompt. -/
def traPlanPre : String := "Translate this smart contract from its original language to "

/-- Text between the target language and the code in the translate planning
prompt. -/
def traPlanMid : String := ":\n            \n            "

/-- Text after the code in the translate planning prompt. -/
def traPlanPost : String :=
  "\n            \n            Provide detailed comments explaining the key differences between the platforms\n            and any important implementation details.\n            "

/-- The Portia planning prompt of `translate_contract` (lines 189-195). -/
def translatePlanPrompt (code lang : String) : String :=
  traPlanPre ++ lang ++ traPlanMid ++ code ++ traPlanPost

/-- The two Venice messages of `translate_contract`. -/
def translateMessages (code lang : String) : List (String × String) :=
  [("system",
    "You are an expert in blockchain development across multiple platforms. \n                Translate the provided smart contract code into " ++ lang ++
    " with appropriate \n                equivalent functionality. Include comments explaining key differences between the platforms."),
   ("user", "Translate this smart contract to " ++ lang ++ ":\n\n" ++ code)]

/-- Text before the TVL figure in the assess planning prompt. -/
def assPlanPre : String :=
  "Assess the insurance risk for this smart contract with a Total Value Locked (TVL) of $"

/-- Text between the TVL figure and the code in the assess planning
prompt. -/
def assPlanMid : String := ":\n            \n            "

/-- Text after the code in the assess planning prompt. -/
def assPlanPost : String :=
  "\n            \n            Provide a comprehensive assessment including:\n            1. Risk score from 0-100\n            2. Premium percentage recommendation\n            3. Coverage limit recommendation\n            4. Detailed risk factors\n            5. Overall risk level (Low, Medium, High)\n            6. Policy recommendations\n            7. Exclusions that should not be covered\n            \n            Format your response as a JSON structure with these fields.\n            "

/-- The Portia planning prompt of `assess_insurance` (lines 249-263). -/
def assessPlanPrompt (code tvl : String) : String :=
  assPlanPre ++ tvl ++ assPlanMid ++ code ++ assPlanPost

/-- The two Venice messages of `assess_insurance`. -/
def assessMessages (code tvl : String) : List (String × String) :=
  [("system",
    "You are an expert in smart contract risk assessment and insurance. \n                Analyze the provided contract to determine its risk level and appropriate insurance premium \n                recommendations. Consider factors like reentrancy, access control, overflow/underflow, and \n                overall code quality. For a contract with TVL (Total Value Locked) of $" ++ tvl ++
    ", \n                recommend an appropriate premium percentage and coverage terms.\n                \n                Respond with a JSON object with this structure:\n                \x7b\n                  \"risk_score\": number from 0-100,\n                  \"premium_percentage\": number (e.g., 2.5 for 2.5%),\n                  \"coverage_limit\": string (e.g., \"$1,000,000\"),\n                  \"risk_factors\": array of strings describing risk factors,\n                  \"risk_level\": \"Low\", \"Medium\", or \"High\",\n                  \"policy_recommendations\": array of strings with policy details,\n                  \"exclusions\": array of strings listing what wouldn't be covered\n                \x7d"),
   ("user",
    "Assess the insurance risk and premium for this smart contract with TVL of $" ++ tvl ++ ":\n\n" ++ code)]

/-- `request.analysis.get('overall_score', 75)` (line 340). -/
def overallScoreOf (analysis : List (String × PyJson)) : PyJson :=
  (dictGet analysis "overall_score").getD (.num "75")

/-- `request.analysis.get('vulnerabilities', {}).get('risk_level', 'Medium')`
(line 341): a missing `vulnerabilities` key gives the `{}` default whose
`.get` yields `'Medium'`; a present non-dict value has no `.get` attribute
and raises `AttributeError`. -/
def riskLevelOf (analysis : List (String × PyJson)) : Except PyErr PyJson :=
  match dictGet analysis "vulnerabilities" with
  | none => .ok (.str "Medium")
  | some (.obj fs) => .ok ((dictGet fs "risk_level").getD (.str "Medium"))
  | some _ => .error (.attributeError "object has no attribute get")

/-- Text before the truncated code in the recommend planning prompt. -/
def recPlanPre : String :=
  "Based on the following smart contract code and its security analysis, \n            generate recommendations for a tokenomics model:\n            \n            Contract Code:\n            "

/-- The literal truncation marker following the sliced code in the
recommend planning prompt. -/
def truncMarker : String := "... (truncated)"

/-- Text between the truncation marker and the score in the recommend
planning prompt. -/
def recPlanSecurity : String :=
  "\n            \n            Security Analysis:\n            Overall Score: "

/-- Text between the score and the risk level in the recommend planning
prompt. -/
def recPlanRisk : String := "/100\n            Risk Level: "

/-- Text after the risk level in the recommend planning prompt. -/
def recPlanPost : String :=
  "\n            \n            Please recommend:\n            1. An appropriate token name\n            2. A token symbol (3-5 characters)\n            3. Initial supply\n            4. Token distribution strategy\n            5. Vesting schedules if applicable\n            \n            Format your response with clear sections for each recommendation.\n            "

/-- The Portia planning prompt of `generate_recommendation` (lines
345-363): the contract code is truncated to its first 1000 characters. -/
def recommendPlanPrompt (code : String) (score risk : PyJson) : String :=
  recPlanPre ++ String.mk (code.data.take 1000) ++ truncMarker ++ recPlanSecurity ++
  pyStr score ++ recPlanRisk ++ pyStr risk ++ recPlanPost

/-- Text before the score in the recommend system message. -/
def recSysPre : String :=
  "You are an expert in smart contract analysis and tokenomics. Based on the provided smart contract \n                analysis, generate recommendations for a tokenomics model that would be appropriate for this contract.\n                Include suggested name, symbol, initial supply, and distribution strategy. The contract has a security score\n                of "

/-- Text between the score and the risk level in the recommend system
message. -/
def recSysMid : String := "/100 and risk level of "

/-- The recommend system message (lines 370-373). -/
def recommendSystemMsg (score risk : PyJson) : String :=
  recSysPre ++ pyStr score ++ recSysMid ++ pyStr risk ++ "."

/-- Text before the truncated code in the recommend user message. -/
def recUserPre : String := "Generate tokenomics recommendations for this contract:\n\n"

/-- The literal ellipsis marker following the sliced code in the recommend
user message. -/
def ellipsisMarker : String := "..."

/-- Text between the ellipsis marker and the serialised analysis in the
recommend user message. -/
def recUserAna : String := "\n\nAnalysis: "

/-- The recommend user message (line 377). -/
def recommendUserMsg (code : String) (analysis : List (String × PyJson)) : String :=
  recUserPre ++ String.mk (code.data.take 1000) ++ ellipsisMarker ++ recUserAna ++
  dumpsVal (.obj analysis)

/-- The two Venice messages of `generate_recommendation` (lines 367-379). -/
def recommendMessages (code : String) (analysis : List (String × PyJson))
    (score risk : PyJson) : List (String × String) :=
  [("system", recommendSystemMsg score risk),
   ("user", recommendUserMsg code analysis)]

/-! ## The four endpoint handlers

Each handler returns the response body together with the ordered list of
external calls it performed.  `analyze_contract` has no inner `try` around
its Venice block, so a raise there reaches the outer handler;
the other three wrap the Venice block in an inner `try` whose failure falls
through to the Portia fallback. -/

/-- `POST /analyze-contract` (lines 90-181). -/
def analyze_contract (env : Env) (req : ContractRequest) : PyJson × List Event :=
  let prompt := analyzePlanPrompt req.contract_code
  match env.planResult prompt with
  | .error e => (errorEnvelope e, [Event.planCall prompt])
  | .ok plan =>
    let tr := [Event.planCall prompt, Event.veniceCall (analyzeMessages req.contract_code) 1 3000]
    match call_venice_api env with
    | none => portiaFallback env plan tr
    | some v =>
      match veniceUsable v with
      | .error e => (errorEnvelope e, tr)
      | .ok false => portiaFallback env plan tr
      | .ok true =>
        match getMessageContent v with
        | .error e => (errorEnvelope e, tr)
        | .ok content =>
          match summaryOf content with
          | .error e => (errorEnvelope e, tr)
          | .ok summ => (successEnvelope plan (parsedContentOf content) summ, tr)

/-- The inner `try` block shared by the other three handlers: `ok (some
envelope)` is the early success return, `ok none` is the untaken `if`
(fall through to the fallback), `error` is a caught inner exception (also
fall through).  `mkValue` is what the handler stores as the final value:
the extracted payload for `assess_insurance`, the raw content for
`translate_contract` and `generate_recommendation`. -/
def veniceAttempt (env : Env) (plan : PyJson) (mkValue : PyJson → PyJson) :
    Except PyErr (Option PyJson) :=
  match call_venice_api env with
  | none => .ok none
  | some v => do
    let usable ← veniceUsable v
    if !usable then pure none
    else do
      let content ← getMessageContent v
      let summ ← summaryOf content
      pure (some (successEnvelope plan (mkValue content) summ))

/-- `POST /translate-contract` (lines 183-242). -/
def translate_contract (env : Env) (req : TranslateRequest) : PyJson × List Event :=
  let prompt := translatePlanPrompt req.source_code req.target_language
  match env.planResult prompt with
  | .error e => (errorEnvelope e, [Event.planCall prompt])
  | .ok plan =>
    let tr := [Event.planCall prompt,
               Event.veniceCall (translateMessages req.source_code req.target_language) 1 3000]
    match veniceAttempt env plan id with
    | .ok (some envl) => (envl, tr)
    | _ => portiaFallback env plan tr

/-- `POST /assess-insurance` (lines 244-335). -/
def assess_insurance (env : Env) (req : InsuranceRequest) : PyJson × List Event :=
  let prompt := assessPlanPrompt req.contract_code req.tvlStr
  match env.planResult prompt with
  | .error e => (errorEnvelope e, [Event.planCall prompt])
  | .ok plan =>
    let tr := [Event.planCall prompt,
               Event.veniceCall (assessMessages req.contract_code req.tvlStr) 1 3000]
    match veniceAttempt env plan parsedContentOf with
    | .ok (some envl) => (envl, tr)
    | _ => portiaFallback env plan tr

/-- `POST /generate-recommendation` (lines 337-411). -/
def generate_recommendation (env : Env) (req : RecommendationRequest) : PyJson × List Event :=
  let score := overallScoreOf req.analysis
  match riskLevelOf req.analysis with
  | .error e => (errorEnvelope e, [])
  | .ok risk =>
    let prompt := recommendPlanPrompt req.contract_code score risk
    match env.planResult prompt with
    | .error e => (errorEnvelope e, [Event.planCall prompt])
    | .ok plan =>
      let tr := [Event.planCall prompt,
                 Event.veniceCall (recommendMessages req.contract_code req.analysis score risk) 7 3000]
      match veniceAttempt env plan id with
      | .ok (some envl) => (envl, tr)
      | _ => portiaFallback env plan tr

/-! ## Envelope observers -/

/-- Lookup of a top-level key in a response body. -/
def jLookup (j : PyJson) (key : String) : Option PyJson :=
  match j with
  | .obj fs => dictGet fs key
  | _ => none

/-- The `results.outputs.final_output.value` slot of an envelope. -/
def finalValue (j : PyJson) : Option PyJson := do
  let r ← jLookup j "results"
  let o ← jLookup r "outputs"
  let f ← jLookup o "final_output"
  jLookup f "value"

/-- Does `sub` occur inside `hay`? -/
def containsSub (sub hay : List Char) : Bool :=
  (findSub sub hay).isSome

/-- The backquote character, which every fence pattern contains. -/
def backquote : Char := Char.ofNat 96

/-! ## Statable properties and concrete instances -/

/-- The plan-protocol property of one handler run, relative to the prompt it
plans with and the plan the SDK returned: the trace starts with the plan
construction (hence it precedes any Venice call), no second plan is ever
constructed, any executed plan is the previously constructed one, and every
non-error response body carries that plan under `plan`. -/
def PlanProtocol (out : PyJson × List Event) (prompt : String) (plan : PyJson) : Prop :=
  (∃ rest, out.2 = Event.planCall prompt :: rest ∧ ∀ e ∈ rest, e.isPlanCall = false) ∧
  (∀ pl, Event.runPlanCall pl ∈ out.2 → pl = plan) ∧
  ((∃ e : PyErr, out.1 = errorEnvelope e) ∨ jLookup out.1 "plan" = some plan)

/-- Every planning prompt of the trace contains `planSub`, and the system
message of every Venice call of the trace contains `sysSub`. -/
def PromptsContain (tr : List Event) (planSub sysSub : String) : Prop :=
  (∀ p, Event.planCall p ∈ tr → containsSub planSub.data p.data = true) ∧
  (∀ msgs t m sys, Event.veniceCall msgs t m ∈ tr → ("system", sys) ∈ msgs →
    containsSub sysSub.data sys.data = true)

/-- The three possible shapes of a handler's response body: the in-band
error envelope `{error: msg}` with no further structure, the success
envelope, or the fallback envelope. -/
def EnvelopeShape (j : PyJson) : Prop :=
  (∃ e : PyErr, j = errorEnvelope e) ∨
  (∃ p v s, j = successEnvelope p v s) ∨
  (∃ p r, j = fallbackEnvelope p r)

/-- An environment whose plan, Venice outcome and run dump are fixed. -/
def mkEnv (plan : PyJson) (venice : Except PyErr PyJson) (run : PyJson) : Env :=
  Env.mk (fun _ => .ok plan) venice (fun _ => .ok run)

/-- A well-formed Venice body holding one choice with the given content. -/
def veniceChoices (content : String) : PyJson :=
  .obj [("choices", .arr [.obj [("message", .obj [("content", .str content)])]])]

/-- The simulated Venice content of the spec's analyze-contract scenario. -/
def scenarioContent : String :=
  "Sure, here is the analysis:\n```json\n\x7b\"overall_score\": 42\x7d\n```"

/-- The environment of the spec's analyze-contract scenario. -/
def envScenario : Env :=
  mkEnv (.str "plan-artifact") (.ok (veniceChoices scenarioContent)) (.str "run-dump")

/-- The contract of the spec's analyze-contract scenario. -/
def reqScenario : ContractRequest :=
  ContractRequest.mk
    "contract Test \x7b function transfer() public \x7b msg.sender.transfer(100); \x7d \x7d"

/-- A Venice body whose single choice lacks the `message` field. -/
def envNoMessage : Env :=
  mkEnv (.str "plan-artifact") (.ok (.obj [("choices", .arr [.obj []])])) (.str "run-dump")

/-- A content that is itself a JSON object literal. -/
def jsonishContent : String := "\x7b\"x\": 1\x7d"

/-- An environment whose Venice call succeeds with `jsonishContent`. -/
def envJsonish : Env :=
  mkEnv (.str "plan-artifact") (.ok (veniceChoices jsonishContent)) (.str "run-dump")

/-- An environment whose Venice call fails at transport level. -/
def envDown : Env :=
  mkEnv (.str "plan-artifact") (.error (.typeError "connection refused")) (.str "run-dump")

/-- The multi-span text of the greedy-vs-lazy counterexample. -/
def multiSpanText : String := "\x7b\"a\": 1\x7d and \x7b\"b\": 2\x7d"

/-- A fence-free text whose first `{` is at index 1 and first `}` at 6,
with loose backquotes inside the brace span: the extraction block strips
them before parsing. -/
def witText : String := "x\x7b``` \x7dy"

/-- A long contract: 1000 `a`s, then a differing tail. -/
def longContractB : String := String.mk (List.replicate 1000 'a' ++ ['b'])

/-- The same 1000-character prefix with another tail. -/
def longContractC : String := String.mk (List.replicate 1000 'a' ++ ['c'])

/-! ## Lemmas about the scanning primitives -/

/-- If some character of `pat` never occurs in `hay`, then `pat` never
occurs in `hay`. -/
theorem findSub_eq_none_of_forbidden (pat hay : List Char) (c : Char)
    (hc : c ∈ pat) (h : ∀ x ∈ hay, x ≠ c) : findSub pat hay = none := by
  induction hay with
  | nil =>
    have hne : pat ≠ [] := by intro e; subst e; cases hc
    simp [findSub, hne]
  | cons x rest ih =>
    have hnp : ¬ (pat.isPrefixOf (x :: rest) = true) := by
      intro hb
      exact h c ((List.isPrefixOf_iff_prefix.mp hb).subset hc) rfl
    simp [findSub, hnp, ih (fun y hy => h y (List.mem_cons_of_mem _ hy))]

/-- `findSub` for a single-character pattern finds exactly the first
occurrence of that character. -/
theorem findSub_single (c : Char) (hay : List Char) (i : Nat)
    (hi : hay.get? i = some c) (hifirst : ∀ k < i, hay.get? k ≠ some c) :
    findSub [c] hay = some i := by
  induction hay generalizing i with
  | nil => simp at hi
  | cons x rest ih =>
    by_cases hx : x = c
    · subst hx
      have hz : i = 0 := by
        by_contra hne
        exact hifirst 0 (Nat.pos_of_ne_zero hne) rfl
      subst hz
      simp [findSub, List.isPrefixOf]
    · cases i with
      | zero =>
        exact absurd (by simpa using hi) hx
      | succ i' =>
        have hpre : ¬ ([c].isPrefixOf (x :: rest) = true) := by
          simp [List.isPrefixOf]
          intro h
          exact hx h.symm
        have hrec := ih i' (by simpa using hi)
          (fun k hk => by
            have := hifirst (k + 1) (by omega)
            simpa using this)
        simp [findSub, hpre, hrec]

/-- An occurrence inside `b` is an occurrence inside `a ++ b`. -/
theorem containsSub_append_left (sub a b : List Char) (h : containsSub sub b) :
    containsSub sub (a ++ b) := by
  induction a with
  | nil => simpa using h
  | cons x a' ih =>
    unfold containsSub findSub
    by_cases hp : sub.isPrefixOf (x :: (a' ++ b)) = true
    · simp [hp]
    · simpa [hp, containsSub, Option.isSome_map] using ih

/-- An occurrence inside `a` is an occurrence inside `a ++ b`. -/
theorem containsSub_append_right (sub a b : List Char) (h : containsSub sub a) :
    containsSub sub (a ++ b) := by
  induction a with
  | nil =>
    have he : sub = [] := by
      by_contra hne
      simp [containsSub, findSub, hne] at h
    subst he
    cases b with
    | nil => simp [containsSub, findSub]
    | cons y b' => simp [containsSub, findSub, List.isPrefixOf]
  | cons x a' ih =>
    by_cases hp : sub.isPrefixOf (x :: a') = true
    · have hp2 : sub.isPrefixOf (x :: (a' ++ b)) = true := by
        rw [List.isPrefixOf_iff_prefix] at hp ⊢
        exact hp.trans (by simp)
      simp [containsSub, findSub, hp2]
    · have ha' : containsSub sub a' := by
        simpa [containsSub, findSub, hp, Option.isSome_map] using h
      have hab := ih ha'
      by_cases hp2 : sub.isPrefixOf (x :: (a' ++ b)) = true
      · simp [containsSub, findSub, hp2]
      · simpa [containsSub, findSub, hp2, Option.isSome_map] using hab

/-- A list occurs inside itself. -/
theorem containsSub_refl (l : List Char) : containsSub l l := by
  cases l with
  | nil => simp [containsSub, findSub]
  | cons x rest =>
    simp [containsSub, findSub, List.isPrefixOf_iff_prefix.mpr List.prefix_rfl]

/-- A list occurs inside `a ++ l ++ b`. -/
theorem containsSub_middle (l a b : List Char) : containsSub l (a ++ (l ++ b)) :=
  containsSub_append_left _ _ _ (containsSub_append_right _ _ _ (containsSub_refl l))

/-- `get?` through `drop`. -/
theorem get?_drop_eq (l : List Char) (n m : Nat) : (l.drop n).get? m = l.get? (n + m) := by
  simp [List.get?_eq_getElem?, List.getElem?_drop]

/-- The lazy brace pattern matches exactly the span from the first `{` of
the text to the first `}` after it. -/
theorem fencedMatch_brace (text : List Char) (i j : Nat)
    (hi : text.get? i = some lbrace) (hifirst : ∀ k < i, text.get? k ≠ some lbrace)
    (hij : i < j) (hj : text.get? j = some rbrace)
    (hjfirst : ∀ k < j, i < k → text.get? k ≠ some rbrace) :
    fencedMatch [lbrace] [rbrace] text = some ((text.drop i).take (j + 1 - i)) := by
  have h1 : findSub [lbrace] text = some i := findSub_single _ _ _ hi hifirst
  have hdd : (text.drop i).drop ([lbrace] : List Char).length = text.drop (i + 1) := by
    simp [List.drop_drop]
  have h2 : findSub [rbrace] (text.drop (i + 1)) = some (j - (i + 1)) := by
    apply findSub_single
    · rw [get?_drop_eq]
      have he : i + 1 + (j - (i + 1)) = j := by omega
      rw [he]; exact hj
    · intro k hk
      rw [get?_drop_eq]
      exact hjfirst (i + 1 + k) (by omega) (by omega)
  have harith : ([lbrace] : List Char).length + (j - (i + 1)) + ([rbrace] : List Char).length
      = j + 1 - i := by
    simp; omega
  simp only [fencedMatch, h1, hdd, h2, harith]

/-! # Claim theorems -/

/-- **C4** (confirmed).  `extract` never lets an exception reach its
caller: it equals the try-block semantics `extractAttempt` with every
raised parse failure (including a malformed fenced block) converted to the
raw-response fallback payload. -/
theorem extract_never_raises (content : String) :
    extract content =
      match extractAttempt content with
      | .ok v => v
      | .error _ => rawFallback content := by
  cases hc : candidateOf content with
  | none => simp [extract, extractAttempt, hc]
  | some cand =>
    cases hl : json_loads cand <;> simp [extract, extractAttempt, hc, hl]

/-- **C7 counterexample**.  The text `"```\n42\n```"` contains no brace at
all, yet `extract` does not return the raw-response fallback: the untagged
fence pattern matches, its inner text `42` parses as JSON, and the parsed
number is returned. -/
theorem extract_braceless_fenced_scalar :
    (∀ c ∈ "```\n42\n```".data, c ≠ lbrace ∧ c ≠ rbrace) ∧
    extract "```\n42\n```" = PyJson.num "42" ∧
    PyJson.num "42" ≠ rawFallback "```\n42\n```" := by
  refine ⟨by decide, rfl, fun h => ?_⟩
  exact PyJson.noConfusion h

/-- **C7 amended**.  For every text with no `{`, no `}` and no fenced code
block (neither fence pattern matches), `extract` returns the raw-response
fallback holding the text verbatim.  Stray backquotes that do not form a
fenced block are allowed. -/
theorem extract_verbatim_fallback_without_braces_or_fence (text : String)
    (hfj : fencedMatch jsonOpener fenceCloser text.data = none)
    (hfp : fencedMatch plainOpener fenceCloser text.data = none)
    (hb : ∀ c ∈ text.data, c ≠ lbrace ∧ c ≠ rbrace) :
    extract text = rawFallback text := by
  have h3 : findSub [lbrace] text.data = none :=
    findSub_eq_none_of_forbidden _ _ lbrace (by decide) (fun x hx => (hb x hx).1)
  have h4 : fencedMatch [lbrace] [rbrace] text.data = none := by
    unfold fencedMatch; rw [h3]
  simp [extract, candidateOf, findJsonMatch, hfj, hfp, h4]

/-- Witness for C7 amended at a brace-free text that does contain stray
backquotes (but no fenced block). -/
theorem extract_verbatim_fallback_without_braces_or_fence_witness :
    (fencedMatch jsonOpener fenceCloser "code: `foo()` here".data = none ∧
     fencedMatch plainOpener fenceCloser "code: `foo()` here".data = none ∧
     ∀ c ∈ "code: `foo()` here".data, c ≠ lbrace ∧ c ≠ rbrace) ∧
    extract "code: `foo()` here" = rawFallback "code: `foo()` here" :=
  ⟨⟨by decide, by decide, by decide⟩,
   extract_verbatim_fallback_without_braces_or_fence _ (by decide) (by decide) (by decide)⟩

/-- **C2 counterexample**.  On `{"a": 1} and {"b": 2}` the greedy
first-`{`-to-last-`}` span is not valid JSON, so the claim predicts the
raw-response fallback; the code instead submits the lazy span
`{"a": 1}` and returns its parse, a narrower valid inner match. -/
theorem extract_not_greedy_counterexample :
    json_loads multiSpanText = none ∧
    extract multiSpanText = PyJson.obj [("a", PyJson.num "1")] ∧
    PyJson.obj [("a", PyJson.num "1")] ≠ rawFallback multiSpanText := by
  refine ⟨rfl, rfl, fun h => ?_⟩
  have h2 := congrArg (fun j => jLookup j "a") h
  simp [jLookup, dictGet, rawFallback] at h2

/-- **C2 amended**.  For text with no fenced block (neither fence pattern
matches), the candidate submitted to the parser is the span from the FIRST
`{` of the text to the FIRST `}` after it (the pattern is lazy, not
greedy), with every occurrence of the fence markers stripped from it by
the three `replace` calls; if that stripped span is not valid JSON, the
result is the raw-response fallback. -/
theorem extract_candidate_first_brace_to_first_close (text : String) (i j : Nat)
    (hfj : fencedMatch jsonOpener fenceCloser text.data = none)
    (hfp : fencedMatch plainOpener fenceCloser text.data = none)
    (hi : text.data.get? i = some lbrace)
    (hifirst : ∀ k < i, text.data.get? k ≠ some lbrace)
    (hij : i < j) (hj : text.data.get? j = some rbrace)
    (hjfirst : ∀ k < j, i < k → text.data.get? k ≠ some rbrace) :
    extract text =
      match json_loads (String.mk (stripFences ((text.data.drop i).take (j + 1 - i)))) with
      | some v => v
      | none => rawFallback text := by
  have h3 := fencedMatch_brace text.data i j hi hifirst hij hj hjfirst
  simp only [extract, candidateOf, findJsonMatch, hfj, hfp, h3, Option.map_some']

/-- Witness for C2 amended on `witText`, whose first `{` is at index 1 and
whose first following `}` is at index 6; the span `{``` }` is stripped of
its backquotes and parses as the empty object. -/
theorem extract_candidate_first_brace_to_first_close_witness :
    ((fencedMatch jsonOpener fenceCloser witText.data = none) ∧
     (fencedMatch plainOpener fenceCloser witText.data = none) ∧
     witText.data.get? 1 = some lbrace ∧
     (∀ k < 1, witText.data.get? k ≠ some lbrace) ∧
     (1 : Nat) < 6 ∧
     witText.data.get? 6 = some rbrace ∧
     (∀ k < 6, 1 < k → witText.data.get? k ≠ some rbrace)) ∧
    extract witText =
      match json_loads (String.mk (stripFences ((witText.data.drop 1).take (6 + 1 - 1)))) with
      | some v => v
      | none => rawFallback witText :=
  ⟨⟨by decide, by decide, by decide, by decide, by decide, by decide, by decide⟩,
   extract_candidate_first_brace_to_first_close witText 1 6 (by decide) (by decide)
     (by decide) (by decide) (by decide) (by decide) (by decide)⟩

/-- The final-output value slot of a success envelope holds the stored
value. -/
theorem finalValue_successEnvelope (p val s : PyJson) :
    finalValue (successEnvelope p val s) = some val := rfl

/-- Inversion of the inner-try block: any early-returned body is a success
envelope built from the handler's plan. -/
theorem veniceAttempt_ok_some (env : Env) (plan : PyJson) (f : PyJson → PyJson) (x : PyJson)
    (h : veniceAttempt env plan f = .ok (some x)) :
    ∃ content summ, x = successEnvelope plan (f content) summ := by
  revert h
  unfold veniceAttempt
  cases hv : call_venice_api env with
  | none => intro h; simp at h
  | some v =>
    intro h
    cases hu : veniceUsable v with
    | error e => simp [hu, bind, Except.bind] at h
    | ok b =>
      cases b with
      | false => simp [hu, bind, Except.bind, pure, Except.pure] at h
      | true =>
        simp only [hu, bind, Except.bind, pure, Except.pure, Bool.not_true,
          Bool.false_eq_true, if_false] at h
        cases hc : getMessageContent v with
        | error e => simp [hc] at h
        | ok content =>
          simp only [hc] at h
          cases hs : summaryOf content with
          | error e => simp [hs] at h
          | ok summ =>
            simp only [hs, Except.ok.injEq, Option.some.injEq] at h
            exact ⟨content, summ, h.symm⟩

/-- The fallback tail satisfies the plan protocol when the trace so far is
the plan construction followed by the Venice call. -/
theorem planProtocol_fallback (env : Env) (plan : PyJson) (prompt : String)
    (msgs : List (String × String)) (t m : Nat) :
    PlanProtocol (portiaFallback env plan
      [Event.planCall prompt, Event.veniceCall msgs t m]) prompt plan := by
  unfold portiaFallback
  cases hr : env.runPlanResult plan with
  | error e =>
    refine ⟨⟨[Event.veniceCall msgs t m, Event.runPlanCall plan], rfl, ?_⟩, ?_, Or.inl ⟨e, rfl⟩⟩
    · intro x hx
      rcases List.mem_cons.mp hx with rfl | hx2
      · rfl
      · rcases List.mem_cons.mp hx2 with rfl | hx3
        · rfl
        · cases hx3
    · intro pl hpl
      simp only [List.cons_append, List.nil_append, List.mem_cons,
        List.not_mem_nil, or_false] at hpl
      rcases hpl with h1 | h1 | h1
      · cases h1
      · cases h1
      · exact (Event.runPlanCall.inj h1)
  | ok run =>
    refine ⟨⟨[Event.veniceCall msgs t m, Event.runPlanCall plan], rfl, ?_⟩, ?_, Or.inr rfl⟩
    · intro x hx
      rcases List.mem_cons.mp hx with rfl | hx2
      · rfl
      · rcases List.mem_cons.mp hx2 with rfl | hx3
        · rfl
        · cases hx3
    · intro pl hpl
      simp only [List.cons_append, List.nil_append, List.mem_cons,
        List.not_mem_nil, or_false] at hpl
      rcases hpl with h1 | h1 | h1
      · cases h1
      · cases h1
      · exact (Event.runPlanCall.inj h1)

/-- A non-fallback outcome satisfies the plan protocol as soon as its body
is an error envelope or carries the plan. -/
theorem planProtocol_direct (body : PyJson) (prompt : String) (plan : PyJson)
    (msgs : List (String × String)) (t m : Nat)
    (hbody : (∃ e : PyErr, body = errorEnvelope e) ∨ jLookup body "plan" = some plan) :
    PlanProtocol (body, [Event.planCall prompt, Event.veniceCall msgs t m]) prompt plan := by
  refine ⟨⟨[Event.veniceCall msgs t m], rfl, ?_⟩, ?_, hbody⟩
  · intro x hx
    rcases List.mem_cons.mp hx with rfl | hx2
    · rfl
    · cases hx2
  · intro pl hpl
    simp only [List.mem_cons, List.not_mem_nil, or_false] at hpl
    rcases hpl with h1 | h1
    · cases h1
    · cases h1

/-- The fallback tail always produces one of the three envelope shapes. -/
theorem envelopeShape_portiaFallback (env : Env) (plan : PyJson) (tr : List Event) :
    EnvelopeShape (portiaFallback env plan tr).1 := by
  unfold portiaFallback
  cases hr : env.runPlanResult plan with
  | error e => dsimp only; exact Or.inl ⟨e, rfl⟩
  | ok run => exact Or.inr (Or.inr ⟨plan, run, rfl⟩)

/-- **C5** (confirmed).  On every endpoint the Portia plan is constructed
before the primary provider is attempted (the trace starts with the plan
call and never contains a second one), the fallback executes exactly the
previously constructed plan, and every non-error response body carries
that plan under the key `plan`, whichever provider answered. -/
theorem plan_precedes_primary_and_is_reused (env : Env) (plan : PyJson) :
    (∀ code, env.planResult (analyzePlanPrompt code) = .ok plan →
      PlanProtocol (analyze_contract env (ContractRequest.mk code))
        (analyzePlanPrompt code) plan) ∧
    (∀ code lang, env.planResult (translatePlanPrompt code lang) = .ok plan →
      PlanProtocol (translate_contract env (TranslateRequest.mk code lang))
        (translatePlanPrompt code lang) plan) ∧
    (∀ code tvl, env.planResult (assessPlanPrompt code tvl) = .ok plan →
      PlanProtocol (assess_insurance env (InsuranceRequest.mk code tvl))
        (assessPlanPrompt code tvl) plan) ∧
    (∀ code analysis risk, riskLevelOf analysis = .ok risk →
      env.planResult (recommendPlanPrompt code (overallScoreOf analysis) risk) = .ok plan →
      PlanProtocol (generate_recommendation env (RecommendationRequest.mk code analysis))
        (recommendPlanPrompt code (overallScoreOf analysis) risk) plan) := by
  refine ⟨?_, ?_, ?_, ?_⟩
  · intro code hp
    simp only [analyze_contract, hp]
    cases hv : call_venice_api env with
    | none => simp only [hv]; exact planProtocol_fallback env plan _ _ _ _
    | some v =>
      cases hu : veniceUsable v with
      | error e =>
        simp only [hv, hu]; exact planProtocol_direct _ _ _ _ _ _ (Or.inl ⟨e, rfl⟩)
      | ok b =>
        cases b with
        | false => simp only [hv, hu]; exact planProtocol_fallback env plan _ _ _ _
        | true =>
          cases hc : getMessageContent v with
          | error e =>
            simp only [hv, hu, hc]; exact planProtocol_direct _ _ _ _ _ _ (Or.inl ⟨e, rfl⟩)
          | ok content =>
            cases hs : summaryOf content with
            | error e =>
              simp only [hv, hu, hc, hs]
              exact planProtocol_direct _ _ _ _ _ _ (Or.inl ⟨e, rfl⟩)
            | ok summ =>
              simp only [hv, hu, hc, hs]
              exact planProtocol_direct _ _ _ _ _ _ (Or.inr rfl)
  · intro code lang hp
    simp only [translate_contract, hp]
    cases ha : veniceAttempt env plan id with
    | error e => simp only [ha]; exact planProtocol_fallback env plan _ _ _ _
    | ok o =>
      cases o with
      | none => simp only [ha]; exact planProtocol_fallback env plan _ _ _ _
      | some x =>
        obtain ⟨content, summ, hx⟩ := veniceAttempt_ok_some env plan id x ha
        subst hx
        simp only [ha]
        exact planProtocol_direct _ _ _ _ _ _ (Or.inr rfl)
  · intro code tvl hp
    simp only [assess_insurance, hp]
    cases ha : veniceAttempt env plan parsedContentOf with
    | error e => simp only [ha]; exact planProtocol_fallback env plan _ _ _ _
    | ok o =>
      cases o with
      | none => simp only [ha]; exact planProtocol_fallback env plan _ _ _ _
      | some x =>
        obtain ⟨content, summ, hx⟩ := veniceAttempt_ok_some env plan parsedContentOf x ha
        subst hx
        simp only [ha]
        exact planProtocol_direct _ _ _ _ _ _ (Or.inr rfl)
  · intro code analysis risk hr hp
    simp only [generate_recommendation, hr, hp]
    cases ha : veniceAttempt env plan id with
    | error e => simp only [ha]; exact planProtocol_fallback env plan _ _ _ _
    | ok o =>
      cases o with
      | none => simp only [ha]; exact planProtocol_fallback env plan _ _ _ _
      | some x =>
        obtain ⟨content, summ, hx⟩ := veniceAttempt_ok_some env plan id x ha
        subst hx
        simp only [ha]
        exact planProtocol_direct _ _ _ _ _ _ (Or.inr rfl)

/-- Witness for C5 at the scenario environment and a concrete contract. -/
theorem plan_precedes_primary_and_is_reused_witness :
    envScenario.planResult (analyzePlanPrompt "c") = .ok (PyJson.str "plan-artifact") ∧
    PlanProtocol (analyze_contract envScenario (ContractRequest.mk "c"))
      (analyzePlanPrompt "c") (PyJson.str "plan-artifact") :=
  ⟨rfl,
   (plan_precedes_primary_and_is_reused envScenario (PyJson.str "plan-artifact")).1 "c" rfl⟩

/-- **C6** (confirmed).  Every handler output, under every oracle outcome,
is one of exactly three body shapes — the in-band `{error: msg}` envelope,
the success envelope, or the fallback envelope — and is served with the
unchanged default HTTP status 200; no exception escapes a handler. -/
theorem handlers_return_envelope_with_status_200 (env : Env)
    (req1 : ContractRequest) (req2 : TranslateRequest)
    (req3 : InsuranceRequest) (req4 : RecommendationRequest) :
    (EnvelopeShape (analyze_contract env req1).1 ∧
      httpStatusOf (analyze_contract env req1).1 = 200) ∧
    (EnvelopeShape (translate_contract env req2).1 ∧
      httpStatusOf (translate_contract env req2).1 = 200) ∧
    (EnvelopeShape (assess_insurance env req3).1 ∧
      httpStatusOf (assess_insurance env req3).1 = 200) ∧
    (EnvelopeShape (generate_recommendation env req4).1 ∧
      httpStatusOf (generate_recommendation env req4).1 = 200) := by
  refine ⟨⟨?_, rfl⟩, ⟨?_, rfl⟩, ⟨?_, rfl⟩, ⟨?_, rfl⟩⟩
  · simp only [analyze_contract]
    cases hp : env.planResult (analyzePlanPrompt req1.contract_code) with
    | error e => simp only [hp]; exact Or.inl ⟨e, rfl⟩
    | ok plan =>
      cases hv : call_venice_api env with
      | none => simp only [hp, hv]; exact envelopeShape_portiaFallback env plan _
      | some v =>
        cases hu : veniceUsable v with
        | error e => simp only [hp, hv, hu]; exact Or.inl ⟨e, rfl⟩
        | ok b =>
          cases b with
          | false => simp only [hp, hv, hu]; exact envelopeShape_portiaFallback env plan _
          | true =>
            cases hc : getMessageContent v with
            | error e => simp only [hp, hv, hu, hc]; exact Or.inl ⟨e, rfl⟩
            | ok content =>
              cases hs : summaryOf content with
              | error e => simp only [hp, hv, hu, hc, hs]; exact Or.inl ⟨e, rfl⟩
              | ok summ =>
                simp only [hp, hv, hu, hc, hs]
                exact Or.inr (Or.inl ⟨plan, parsedContentOf content, summ, rfl⟩)
  · simp only [translate_contract]
    cases hp : env.planResult (translatePlanPrompt req2.source_code req2.target_language) with
    | error e => simp only [hp]; exact Or.inl ⟨e, rfl⟩
    | ok plan =>
      cases ha : veniceAttempt env plan id with
      | error e => simp only [hp, ha]; exact envelopeShape_portiaFallback env plan _
      | ok o =>
        cases o with
        | none => simp only [hp, ha]; exact envelopeShape_portiaFallback env plan _
        | some x =>
          obtain ⟨content, summ, hx⟩ := veniceAttempt_ok_some env plan id x ha
          simp only [hp, ha]
          exact Or.inr (Or.inl ⟨plan, id content, summ, hx⟩)
  · simp only [assess_insurance]
    cases hp : env.planResult (assessPlanPrompt req3.contract_code req3.tvlStr) with
    | error e => simp only [hp]; exact Or.inl ⟨e, rfl⟩
    | ok plan =>
      cases ha : veniceAttempt env plan parsedContentOf with
      | error e => simp only [hp, ha]; exact envelopeShape_portiaFallback env plan _
      | ok o =>
        cases o with
        | none => simp only [hp, ha]; exact envelopeShape_portiaFallback env plan _
        | some x =>
          obtain ⟨content, summ, hx⟩ := veniceAttempt_ok_some env plan parsedContentOf x ha
          simp only [hp, ha]
          exact Or.inr (Or.inl ⟨plan, parsedContentOf content, summ, hx⟩)
  · simp only [generate_recommendation]
    cases hr : riskLevelOf req4.analysis with
    | error e => simp only [hr]; exact Or.inl ⟨e, rfl⟩
    | ok risk =>
      cases hp : env.planResult
          (recommendPlanPrompt req4.contract_code (overallScoreOf req4.analysis) risk) with
      | error e => simp only [hr, hp]; exact Or.inl ⟨e, rfl⟩
      | ok plan =>
        cases ha : veniceAttempt env plan id with
        | error e => simp only [hr, hp, ha]; exact envelopeShape_portiaFallback env plan _
        | ok o =>
          cases o with
          | none => simp only [hr, hp, ha]; exact envelopeShape_portiaFallback env plan _
          | some x =>
            obtain ⟨content, summ, hx⟩ := veniceAttempt_ok_some env plan id x ha
            simp only [hr, hp, ha]
            exact Or.inr (Or.inl ⟨plan, id content, summ, hx⟩)

/-- **C1 counterexample**.  With the primary provider returning the content
`{"x": 1}`, `translate_contract` stores the raw content string as the
final-output value even though the extractor would return the parsed
object: the extraction step is not applied there. -/
theorem translate_final_value_not_extracted :
    finalValue (translate_contract envJsonish (TranslateRequest.mk "c" "Rust")).1
      = some (PyJson.str jsonishContent) ∧
    extract jsonishContent = PyJson.obj [("x", PyJson.num "1")] ∧
    some (PyJson.str jsonishContent) ≠ some (extract jsonishContent) := by
  refine ⟨rfl, rfl, fun h => ?_⟩
  exact PyJson.noConfusion (Option.some.inj h)

/-- **C1 amended**.  On a usable primary response with string content `s`,
`analyze_contract` and `assess_insurance` place `extract s` in the
final-output value, while `translate_contract` and
`generate_recommendation` place the content itself, unextracted. -/
theorem extraction_applied_only_in_analyze_and_assess
    (env : Env) (v plan : PyJson) (s : String)
    (code lang tvl : String) (analysis : List (String × PyJson)) (risk : PyJson)
    (hv : call_venice_api env = some v)
    (hu : veniceUsable v = .ok true)
    (hc : getMessageContent v = .ok (.str s))
    (hp1 : env.planResult (analyzePlanPrompt code) = .ok plan)
    (hp2 : env.planResult (assessPlanPrompt code tvl) = .ok plan)
    (hp3 : env.planResult (translatePlanPrompt code lang) = .ok plan)
    (hr : riskLevelOf analysis = .ok risk)
    (hp4 : env.planResult (recommendPlanPrompt code (overallScoreOf analysis) risk) = .ok plan) :
    finalValue (analyze_contract env (ContractRequest.mk code)).1 = some (extract s) ∧
    finalValue (assess_insurance env (InsuranceRequest.mk code tvl)).1 = some (extract s) ∧
    finalValue (translate_contract env (TranslateRequest.mk code lang)).1
      = some (PyJson.str s) ∧
    finalValue (generate_recommendation env (RecommendationRequest.mk code analysis)).1
      = some (PyJson.str s) := by
  have hatt : ∀ f : PyJson → PyJson, veniceAttempt env plan f =
      .ok (some (successEnvelope plan (f (.str s))
        (.str (if 500 < s.data.length then String.mk (s.data.take 500) ++ "..." else s)))) := by
    intro f
    simp [veniceAttempt, hv, hu, hc, summaryOf, bind, Except.bind, pure, Except.pure]
  refine ⟨?_, ?_, ?_, ?_⟩
  · simp [analyze_contract, hp1, hv, hu, hc, summaryOf, parsedContentOf,
      finalValue_successEnvelope]
  · simp [assess_insurance, hp2, hatt parsedContentOf, finalValue_successEnvelope,
      parsedContentOf]
  · simp [translate_contract, hp3, hatt id, finalValue_successEnvelope]
  · simp [generate_recommendation, hr, hp4, hatt id, finalValue_successEnvelope]

/-- Witness for C1 amended: the environment `envJsonish` satisfies every
hypothesis, and the analyze endpoint then stores the extracted object. -/
theorem extraction_applied_only_in_analyze_and_assess_witness :
    (call_venice_api envJsonish = some (veniceChoices jsonishContent) ∧
     veniceUsable (veniceChoices jsonishContent) = .ok true ∧
     getMessageContent (veniceChoices jsonishContent) = .ok (.str jsonishContent) ∧
     riskLevelOf [] = .ok (.str "Medium")) ∧
    finalValue (analyze_contract envJsonish (ContractRequest.mk "c")).1
      = some (extract jsonishContent) :=
  ⟨⟨rfl, rfl, rfl, rfl⟩,
   (extraction_applied_only_in_analyze_and_assess envJsonish (veniceChoices jsonishContent)
      (PyJson.str "plan-artifact") jsonishContent "c" "Rust" "5.0" [] (PyJson.str "Medium")
      rfl rfl rfl rfl rfl rfl rfl rfl).1⟩

/-- **C3 counterexample**.  In analyze-contract a Venice body that passes
the choices check but whose first choice lacks `message` raises `KeyError`,
which the outer `except` converts to the top-level error envelope — not the
secondary-provider fallback (`venice_used` is absent from the body). -/
theorem analyze_missing_message_error_envelope :
    (analyze_contract envNoMessage (ContractRequest.mk "c")).1
      = PyJson.obj [("error", PyJson.str "'message'")] ∧
    jLookup (analyze_contract envNoMessage (ContractRequest.mk "c")).1 "venice_used" = none :=
  ⟨rfl, rfl⟩

/-- **C3 amended**.  A transport failure or an unusable body (empty or
missing `choices`) falls back to the secondary provider on all four
endpoints; but a body passing the choices check whose first choice lacks
`message`/`content` raises, which only the three endpoints with an inner
`try` convert into the fallback — `analyze_contract` surfaces it as the
top-level error envelope instead. -/
theorem primary_failure_fallback_classification
    (env : Env) (plan run : PyJson)
    (hrun : ∀ p, env.runPlanResult p = .ok run) :
    ((call_venice_api env = none ∨
        ∃ v, call_venice_api env = some v ∧ veniceUsable v = .ok false) →
      (∀ code, env.planResult (analyzePlanPrompt code) = .ok plan →
        (analyze_contract env (ContractRequest.mk code)).1 = fallbackEnvelope plan run) ∧
      (∀ code lang, env.planResult (translatePlanPrompt code lang) = .ok plan →
        (translate_contract env (TranslateRequest.mk code lang)).1 = fallbackEnvelope plan run) ∧
      (∀ code tvl, env.planResult (assessPlanPrompt code tvl) = .ok plan →
        (assess_insurance env (InsuranceRequest.mk code tvl)).1 = fallbackEnvelope plan run) ∧
      (∀ code analysis risk, riskLevelOf analysis = .ok risk →
        env.planResult (recommendPlanPrompt code (overallScoreOf analysis) risk) = .ok plan →
        (generate_recommendation env (RecommendationRequest.mk code analysis)).1
          = fallbackEnvelope plan run)) ∧
    (∀ v e, call_venice_api env = some v → veniceUsable v = .ok true →
      getMessageContent v = .error e →
      (∀ code, env.planResult (analyzePlanPrompt code) = .ok plan →
        (analyze_contract env (ContractRequest.mk code)).1 = errorEnvelope e) ∧
      (∀ code lang, env.planResult (translatePlanPrompt code lang) = .ok plan →
        (translate_contract env (TranslateRequest.mk code lang)).1 = fallbackEnvelope plan run) ∧
      (∀ code tvl, env.planResult (assessPlanPrompt code tvl) = .ok plan →
        (assess_insurance env (InsuranceRequest.mk code tvl)).1 = fallbackEnvelope plan run) ∧
      (∀ code analysis risk, riskLevelOf analysis = .ok risk →
        env.planResult (recommendPlanPrompt code (overallScoreOf analysis) risk) = .ok plan →
        (generate_recommendation env (RecommendationRequest.mk code analysis)).1
          = fallbackEnvelope plan run)) := by
  constructor
  · intro hfail
    have hatt : ∀ f : PyJson → PyJson, veniceAttempt env plan f = .ok none := by
      intro f
      rcases hfail with hnone | ⟨v, hv, hu⟩
      · simp [veniceAttempt, hnone]
      · simp [veniceAttempt, hv, hu, bind, Except.bind, pure, Except.pure]
    refine ⟨?_, ?_, ?_, ?_⟩
    · intro code hp
      rcases hfail with hnone | ⟨v, hv, hu⟩
      · simp [analyze_contract, hp, hnone, portiaFallback, hrun]
      · simp [analyze_contract, hp, hv, hu, portiaFallback, hrun]
    · intro code lang hp
      simp [translate_contract, hp, hatt id, portiaFallback, hrun]
    · intro code tvl hp
      simp [assess_insurance, hp, hatt parsedContentOf, portiaFallback, hrun]
    · intro code analysis risk hr hp
      simp [generate_recommendation, hr, hp, hatt id, portiaFallback, hrun]
  · intro v e hv hu hc
    have hatt : ∀ f : PyJson → PyJson, veniceAttempt env plan f = .error e := by
      intro f
      simp [veniceAttempt, hv, hu, hc, bind, Except.bind, pure, Except.pure]
    refine ⟨?_, ?_, ?_, ?_⟩
    · intro code hp
      simp [analyze_contract, hp, hv, hu, hc]
    · intro code lang hp
      simp [translate_contract, hp, hatt id, portiaFallback, hrun]
    · intro code tvl hp
      simp [assess_insurance, hp, hatt parsedContentOf, portiaFallback, hrun]
    · intro code analysis risk hr hp
      simp [generate_recommendation, hr, hp, hatt id, portiaFallback, hrun]

/-- Witness for C3 amended: with the Venice transport down, the analyze
endpoint serves the fallback envelope built from the pre-computed plan and
the Portia run result. -/
theorem primary_failure_fallback_classification_witness :
    ((∀ p, envDown.runPlanResult p = .ok (PyJson.str "run-dump")) ∧
      call_venice_api envDown = none) ∧
    (analyze_contract envDown (ContractRequest.mk "c")).1
      = fallbackEnvelope (PyJson.str "plan-artifact") (PyJson.str "run-dump") :=
  ⟨⟨fun _ => rfl, rfl⟩,
   ((primary_failure_fallback_classification envDown (PyJson.str "plan-artifact")
      (PyJson.str "run-dump") (fun _ => rfl)).1 (Or.inl rfl)).1 "c" rfl⟩

/-- **C8** (confirmed).  The spec's scenario: with the primary provider
returning prose around a json-tagged fenced block, `analyze_contract`
places the parsed object in `results.outputs.final_output.value` and marks
the primary provider as used. -/
theorem analyze_scenario_fenced_json_extracted :
    finalValue (analyze_contract envScenario reqScenario).1
      = some (PyJson.obj [("overall_score", PyJson.num "42")]) ∧
    jLookup (analyze_contract envScenario reqScenario).1 "venice_used"
      = some (PyJson.bool true) :=
  ⟨rfl, rfl⟩

/-- `String.mk` is a left inverse of `String.data`. -/
theorem data_mk (l : List Char) : (String.mk l).data = l := rfl

/-- An occurrence inside the middle factor of a decomposition is an
occurrence in the whole. -/
theorem containsSub_of_decomp (sub hay pre mid post : List Char)
    (hdecomp : hay = pre ++ (mid ++ post)) (h : containsSub sub mid) :
    containsSub sub hay := by
  subst hdecomp
  exact containsSub_append_left _ _ _ (containsSub_append_right _ _ _ h)

/-- `str()` of a decoded number is its lexeme in this model. -/
theorem pyStr_num (lex : String) : pyStr (.num lex) = lex := by simp [pyStr]

/-- `str()` of a decoded string is the string itself. -/
theorem pyStr_str (s : String) : pyStr (.str s) = s := by simp [pyStr]

/-- The trace of the fallback tail appends exactly one plan execution. -/
theorem portiaFallback_trace (env : Env) (plan : PyJson) (tr : List Event) :
    (portiaFallback env plan tr).2 = tr ++ [Event.runPlanCall plan] := by
  unfold portiaFallback
  cases env.runPlanResult plan <;> rfl

/-- Every planning call of `generate_recommendation` uses the
recommendation planning prompt, and every Venice call the recommendation
messages. -/
theorem recommend_trace_events (env : Env) (req : RecommendationRequest) (risk : PyJson)
    (hr : riskLevelOf req.analysis = .ok risk) :
    (∀ p, Event.planCall p ∈ (generate_recommendation env req).2 →
      p = recommendPlanPrompt req.contract_code (overallScoreOf req.analysis) risk) ∧
    (∀ msgs t m, Event.veniceCall msgs t m ∈ (generate_recommendation env req).2 →
      msgs = recommendMessages req.contract_code req.analysis
        (overallScoreOf req.analysis) risk) := by
  simp only [generate_recommendation, hr]
  cases hp : env.planResult
      (recommendPlanPrompt req.contract_code (overallScoreOf req.analysis) risk) with
  | error e =>
    simp only [hp]
    constructor
    · intro p hmem
      simp only [List.mem_singleton, Event.planCall.injEq] at hmem
      exact hmem
    · intro msgs t m hmem
      simp at hmem
  | ok plan =>
    cases ha : veniceAttempt env plan id with
    | error e =>
      simp only [hp, ha, portiaFallback_trace]
      constructor
      · intro p hmem
        simp at hmem
        exact hmem
      · intro msgs t m hmem
        simp at hmem
        exact hmem.1
    | ok o =>
      cases o with
      | none =>
        simp only [hp, ha, portiaFallback_trace]
        constructor
        · intro p hmem
          simp at hmem
          exact hmem
        · intro msgs t m hmem
          simp at hmem
          exact hmem.1
      | some x =>
        simp only [hp, ha]
        constructor
        · intro p hmem
          simp at hmem
          exact hmem
        · intro msgs t m hmem
          simp at hmem
          exact hmem.1

/-- **C9** (confirmed).  In `generate_recommendation`, when the analysis
lacks `overall_score` the score interpolated into the planning prompt and
the system message is the default 75, and when the analysis lacks a
`vulnerabilities` mapping (or that mapping lacks `risk_level`) the risk
level interpolated there is the default `Medium`. -/
theorem recommendation_prompt_defaults (env : Env) (req : RecommendationRequest) :
    (∀ risk, riskLevelOf req.analysis = .ok risk →
      dictGet req.analysis "overall_score" = none →
      PromptsContain (generate_recommendation env req).2 "Overall Score: 75/100"
        "of 75/100") ∧
    ((dictGet req.analysis "vulnerabilities" = none ∨
        ∃ fs, dictGet req.analysis "vulnerabilities" = some (.obj fs) ∧
          dictGet fs "risk_level" = none) →
      PromptsContain (generate_recommendation env req).2 "Risk Level: Medium"
        "risk level of Medium.") := by
  constructor
  · intro risk hr hscore
    have h75 : overallScoreOf req.analysis = .num "75" := by
      simp [overallScoreOf, hscore]
    obtain ⟨hplan, hmsgs⟩ := recommend_trace_events env req risk hr
    refine ⟨?_, ?_⟩
    · intro p hmem
      rw [hplan p hmem]
      apply containsSub_of_decomp _ _
        ((recPlanPre ++ String.mk (req.contract_code.data.take 1000) ++ truncMarker).data)
        ((recPlanSecurity ++ "75" ++ recPlanRisk).data)
        ((pyStr risk ++ recPlanPost).data)
      · simp [recommendPlanPrompt, h75, pyStr_num, String.data_append, List.append_assoc]
      · decide
    · intro msgs t m sys hmem hsys
      rw [hmsgs msgs t m hmem] at hsys
      simp [recommendMessages] at hsys
      rw [hsys]
      apply containsSub_of_decomp _ _ ([] : List Char)
        ((recSysPre ++ "75" ++ recSysMid).data)
        ((pyStr risk ++ ".").data)
      · simp [recommendSystemMsg, h75, pyStr_num, String.data_append, List.append_assoc]
      · decide
  · intro hvuln
    have hrm : riskLevelOf req.analysis = .ok (.str "Medium") := by
      rcases hvuln with h | ⟨fs, h, h2⟩
      · simp [riskLevelOf, h]
      · simp only [riskLevelOf, h]
        simp [h2]
    obtain ⟨hplan, hmsgs⟩ := recommend_trace_events env req (.str "Medium") hrm
    refine ⟨?_, ?_⟩
    · intro p hmem
      rw [hplan p hmem]
      apply containsSub_of_decomp _ _
        ((recPlanPre ++ String.mk (req.contract_code.data.take 1000) ++ truncMarker ++
          recPlanSecurity ++ pyStr (overallScoreOf req.analysis)).data)
        ((recPlanRisk ++ "Medium").data)
        (recPlanPost.data)
      · simp [recommendPlanPrompt, pyStr_str, String.data_append, List.append_assoc]
      · decide
    · intro msgs t m sys hmem hsys
      rw [hmsgs msgs t m hmem] at hsys
      simp [recommendMessages] at hsys
      rw [hsys]
      apply containsSub_of_decomp _ _
        ((recSysPre ++ pyStr (overallScoreOf req.analysis)).data)
        ((recSysMid ++ "Medium" ++ ".").data)
        ([] : List Char)
      · simp [recommendSystemMsg, pyStr_str, String.data_append, List.append_assoc]
      · decide

/-- Witness for C9 with the empty analysis dict: both defaults apply. -/
theorem recommendation_prompt_defaults_witness :
    (riskLevelOf ([] : List (String × PyJson)) = .ok (.str "Medium") ∧
     dictGet ([] : List (String × PyJson)) "overall_score" = none ∧
     dictGet ([] : List (String × PyJson)) "vulnerabilities" = none) ∧
    (PromptsContain
        (generate_recommendation envScenario (RecommendationRequest.mk "c" [])).2
        "Overall Score: 75/100" "of 75/100" ∧
     PromptsContain
        (generate_recommendation envScenario (RecommendationRequest.mk "c" [])).2
        "Risk Level: Medium" "risk level of Medium.") :=
  ⟨⟨rfl, rfl, rfl⟩,
   ⟨(recommendation_prompt_defaults envScenario (RecommendationRequest.mk "c" [])).1
      (.str "Medium") rfl rfl,
    (recommendation_prompt_defaults envScenario (RecommendationRequest.mk "c" [])).2
      (Or.inl rfl)⟩⟩

/-- **C10** (confirmed).  `generate_recommendation` depends on the contract
code only through its first 1000 characters (so characters beyond position
1000 can never reach either prompt), the sliced code is followed by the
literal markers `... (truncated)` in the planning prompt and `...` in the
user message, while the other three endpoints embed the full contract text
in their planning prompts. -/
theorem recommendation_truncates_contract_code (env : Env) :
    (∀ c1 c2 analysis, c1.data.take 1000 = c2.data.take 1000 →
      generate_recommendation env (RecommendationRequest.mk c1 analysis)
        = generate_recommendation env (RecommendationRequest.mk c2 analysis)) ∧
    (∀ c analysis risk, riskLevelOf analysis = .ok risk →
      (∀ p, Event.planCall p ∈
          (generate_recommendation env (RecommendationRequest.mk c analysis)).2 →
        containsSub (c.data.take 1000 ++ truncMarker.data) p.data = true) ∧
      (∀ msgs t m usr, Event.veniceCall msgs t m ∈
          (generate_recommendation env (RecommendationRequest.mk c analysis)).2 →
        ("user", usr) ∈ msgs →
        containsSub (c.data.take 1000 ++ ellipsisMarker.data) usr.data = true)) ∧
    (∀ c, containsSub c.data (analyzePlanPrompt c).data = true) ∧
    (∀ c lang, containsSub c.data (translatePlanPrompt c lang).data = true) ∧
    (∀ c tvl, containsSub c.data (assessPlanPrompt c tvl).data = true) := by
  refine ⟨?_, ?_, ?_, ?_, ?_⟩
  · intro c1 c2 analysis h
    simp only [generate_recommendation, recommendPlanPrompt, recommendMessages,
      recommendUserMsg, h]
  · intro c analysis risk hr
    obtain ⟨hplan, hmsgs⟩ :=
      recommend_trace_events env (RecommendationRequest.mk c analysis) risk hr
    constructor
    · intro p hmem
      rw [hplan p hmem]
      apply containsSub_of_decomp _ _ recPlanPre.data
        ((String.mk (c.data.take 1000) ++ truncMarker).data)
        ((recPlanSecurity ++ pyStr (overallScoreOf analysis) ++ recPlanRisk ++
          pyStr risk ++ recPlanPost).data)
      · simp [recommendPlanPrompt, String.data_append, List.append_assoc]
      · have he : (String.mk (c.data.take 1000) ++ truncMarker).data
            = c.data.take 1000 ++ truncMarker.data := by
          simp [String.data_append, data_mk]
        rw [he]
        exact containsSub_refl _
    · intro msgs t m usr hmem husr
      rw [hmsgs msgs t m hmem] at husr
      simp [recommendMessages] at husr
      rw [husr]
      apply containsSub_of_decomp _ _ recUserPre.data
        ((String.mk (c.data.take 1000) ++ ellipsisMarker).data)
        ((recUserAna ++ dumpsVal (.obj analysis)).data)
      · simp [recommendUserMsg, String.data_append, List.append_assoc]
      · have he : (String.mk (c.data.take 1000) ++ ellipsisMarker).data
            = c.data.take 1000 ++ ellipsisMarker.data := by
          simp [String.data_append, data_mk]
        rw [he]
        exact containsSub_refl _
  · intro c
    apply containsSub_of_decomp _ _ anaPlanPre.data c.data anaPlanPost.data
    · simp [analyzePlanPrompt, String.data_append, List.append_assoc]
    · exact containsSub_refl _
  · intro c lang
    apply containsSub_of_decomp _ _ ((traPlanPre ++ lang ++ traPlanMid).data) c.data
      traPlanPost.data
    · simp [translatePlanPrompt, String.data_append, List.append_assoc]
    · exact containsSub_refl _
  · intro c tvl
    apply containsSub_of_decomp _ _ ((assPlanPre ++ tvl ++ assPlanMid).data) c.data
      assPlanPost.data
    · simp [assessPlanPrompt, String.data_append, List.append_assoc]
    · exact containsSub_refl _

/-- Witness for C10: two contracts sharing their first 1000 characters but
differing at position 1001 yield identical handler outputs, and the
truncated-code-plus-marker span appears in every planning prompt. -/
theorem recommendation_truncates_contract_code_witness :
    (longContractB.data.take 1000 = longContractC.data.take 1000 ∧
      generate_recommendation envScenario (RecommendationRequest.mk longContractB [])
        = generate_recommendation envScenario (RecommendationRequest.mk longContractC [])) ∧
    (riskLevelOf ([] : List (String × PyJson)) = .ok (.str "Medium") ∧
      ∀ p, Event.planCall p ∈
          (generate_recommendation envScenario (RecommendationRequest.mk "c" [])).2 →
        containsSub ("c".data.take 1000 ++ truncMarker.data) p.data = true) := by
  have htake : longContractB.data.take 1000 = longContractC.data.take 1000 := by
    show (String.mk (List.replicate 1000 'a' ++ ['b'])).data.take 1000
       = (String.mk (List.replicate 1000 'a' ++ ['c'])).data.take 1000
    rw [data_mk, data_mk, List.take_left' (by simp), List.take_left' (by simp)]
  exact ⟨⟨htake, (recommendation_truncates_contract_code envScenario).1 _ _ [] htake⟩,
    ⟨rfl, ((recommendation_truncates_contract_code envScenario).2.1 "c" []
      (.str "Medium") rfl).1⟩⟩

end PortiaServer
